import Mathlib

/-!
Verification of the cursor abstraction of `sqlx-core` (`src/sqlx-core/src/cursor.rs`).

The crate contains the `Cursor` trait declaration (its constructor and `next`
signatures), the crate-private `Sealed` marker module, and the `HasCursor`
backend-binding trait.  The first part of this file is a faithful embedding of
those declarations: Rust lifetimes, the types occurring in the declared
signatures, and the trait/module declarations themselves, so that the
type-level guarantees (exclusive borrows, lifetime confinement of rows,
sealing, backend binding) can be stated and checked.

The second part models the run-time behaviour that the spec ascribes to
cursor implementations (the concrete backends are not part of this crate):
a cursor state machine over a connection capability, with `next`, `from_pool`
and `from_connection` operations, and proofs of the streaming/terminal-state
properties.
-/

namespace SqlxCursor

/-- Rust lifetimes appearing in `cursor.rs`: the trait parameters `'c` (the
connection borrow) and `'q` (the query), the method-local `'cur` introduced by
`Cursor::next`, and an elided (anonymous) lifetime. -/
inductive Lifetime : Type
  | lc
  | lq
  | lcur
  | anon
deriving DecidableEq

/-- The Rust types occurring in the signatures declared in `cursor.rs`. -/
inductive RustType : Type
  /-- `Self` -/
  | selfTy
  /-- `<Self::Database as Database>::Connection` -/
  | connectionTy
  /-- `<Self::Database as HasRow<'lt>>::Row` -/
  | rowTy (lt : Lifetime)
  /-- `Pool<_>` -/
  | poolTy (inner : RustType)
  /-- a shared reference `&'lt _` -/
  | sharedRef (lt : Lifetime) (inner : RustType)
  /-- an exclusive (mutable) reference `&'lt mut _` -/
  | mutRef (lt : Lifetime) (inner : RustType)
  /-- `BoxFuture<'lt, _>` -/
  | boxFuture (lt : Lifetime) (inner : RustType)
  /-- `crate::Result<Self::Database, _>` -/
  | resultTy (inner : RustType)
  /-- `Option<_>` -/
  | optionTy (inner : RustType)
  /-- the generic parameter `E` with bound `E: Execute<'lt, Self::Database>` -/
  | genericExecute (lt : Lifetime)
deriving DecidableEq

/-- A method signature of a Rust trait: optional receiver (`self` parameter),
further parameters, and return type. -/
structure MethodSig : Type where
  name : String
  receiver : Option RustType
  params : List RustType
  ret : RustType
deriving DecidableEq

/-- An associated-type declaration inside a Rust trait: its name, the trait
bound put on it, the lifetime arguments of that bound, and whether the bound
carries a `Database = Self::Database` equality constraint. -/
structure AssocTypeDecl : Type where
  name : String
  boundTrait : Option String
  boundLifetimes : List Lifetime
  databaseEq : Bool
deriving DecidableEq

/-- A Rust trait declaration: lifetime parameters, supertrait bounds on
`Self`, associated types, and methods. -/
structure TraitDecl : Type where
  name : String
  lifetimeParams : List Lifetime
  supertraits : List String
  assocTypes : List AssocTypeDecl
  methods : List MethodSig
deriving DecidableEq

/-- Rust item visibility (only the two forms used in `cursor.rs`). -/
inductive Visibility : Type
  | pub
  | pubCrate
deriving DecidableEq

/-- A Rust module declaration with the traits it contains. -/
structure ModuleDecl : Type where
  name : String
  vis : Visibility
  traitDecls : List String
deriving DecidableEq

/-- Signature of `Cursor::from_pool` as declared in `cursor.rs`:
`fn from_pool<E>(pool: &Pool<<Self::Database as Database>::Connection>, query: E) -> Self`
with `E: Execute<'q, Self::Database>`. -/
def from_pool_sig : MethodSig :=
  { name := "from_pool"
    receiver := none
    params := [RustType.sharedRef Lifetime.anon (RustType.poolTy RustType.connectionTy),
               RustType.genericExecute Lifetime.lq]
    ret := RustType.selfTy }

/-- Signature of `Cursor::from_connection` as declared in `cursor.rs`:
`fn from_connection<E>(connection: &'c mut <Self::Database as Database>::Connection, query: E) -> Self`
with `E: Execute<'q, Self::Database>`. -/
def from_connection_sig : MethodSig :=
  { name := "from_connection"
    receiver := none
    params := [RustType.mutRef Lifetime.lc RustType.connectionTy,
               RustType.genericExecute Lifetime.lq]
    ret := RustType.selfTy }

/-- Signature of `Cursor::next` as declared in `cursor.rs`:
`fn next<'cur>(&'cur mut self) -> BoxFuture<'cur, crate::Result<Self::Database, Option<<Self::Database as HasRow<'cur>>::Row>>>`. -/
def next_sig : MethodSig :=
  { name := "next"
    receiver := some (RustType.mutRef Lifetime.lcur RustType.selfTy)
    params := []
    ret := RustType.boxFuture Lifetime.lcur
      (RustType.resultTy (RustType.optionTy (RustType.rowTy Lifetime.lcur))) }

/-- The `Cursor<'c, 'q>` trait declaration of `cursor.rs`:
`pub trait Cursor<'c, 'q> where Self: Send + Unpin + private::Sealed`,
with associated type `type Database: Database` and the three methods. -/
def cursorTrait : TraitDecl :=
  { name := "Cursor"
    lifetimeParams := [Lifetime.lc, Lifetime.lq]
    supertraits := ["Send", "Unpin", "private::Sealed"]
    assocTypes := [{ name := "Database", boundTrait := some "Database",
                     boundLifetimes := [], databaseEq := false }]
    methods := [from_pool_sig, from_connection_sig, next_sig] }

/-- The `pub(crate) mod private` module of `cursor.rs`, holding the empty
marker trait `Sealed`. -/
def privateModule : ModuleDecl :=
  { name := "private"
    vis := Visibility.pubCrate
    traitDecls := ["Sealed"] }

/-- The `HasCursor<'c, 'q>` trait declaration of `cursor.rs`: associated
types `type Database: Database` and
`type Cursor: Cursor<'c, 'q, Database = Self::Database>`, and no methods. -/
def hasCursorTrait : TraitDecl :=
  { name := "HasCursor"
    lifetimeParams := [Lifetime.lc, Lifetime.lq]
    supertraits := []
    assocTypes := [{ name := "Database", boundTrait := some "Database",
                     boundLifetimes := [], databaseEq := false },
                   { name := "Cursor", boundTrait := some "Cursor",
                     boundLifetimes := [Lifetime.lc, Lifetime.lq], databaseEq := true }]
    methods := [] }

/-- The lifetime of the method receiver when the receiver is an exclusive
(mutable) borrow of `self`; `none` for shared or absent receivers. -/
def MethodSig.receiverExclusiveLifetime (m : MethodSig) : Option Lifetime :=
  match m.receiver with
  | some (RustType.mutRef lt RustType.selfTy) => some lt
  | _ => none

/-- All lifetimes attached to a row type (`<_ as HasRow<'lt>>::Row`)
occurring anywhere inside a Rust type. -/
def RustType.rowLifetimes : RustType → List Lifetime
  | RustType.rowTy lt => [lt]
  | RustType.poolTy inner => inner.rowLifetimes
  | RustType.sharedRef _ inner => inner.rowLifetimes
  | RustType.mutRef _ inner => inner.rowLifetimes
  | RustType.boxFuture _ inner => inner.rowLifetimes
  | RustType.resultTy inner => inner.rowLifetimes
  | RustType.optionTy inner => inner.rowLifetimes
  | _ => []

/-- The lifetime of the returned future, when the return type is a
`BoxFuture`. -/
def RustType.futureLifetime : RustType → Option Lifetime
  | RustType.boxFuture lt _ => some lt
  | _ => none

/-- Whether a fallible type (`crate::Result`) occurs anywhere inside a Rust
type. -/
def RustType.mentionsResult : RustType → Bool
  | RustType.resultTy _ => true
  | RustType.poolTy inner => inner.mentionsResult
  | RustType.sharedRef _ inner => inner.mentionsResult
  | RustType.mutRef _ inner => inner.mentionsResult
  | RustType.boxFuture _ inner => inner.mentionsResult
  | RustType.optionTy inner => inner.mentionsResult
  | _ => false

/-- The exclusive connection borrows among a method's parameters, together
with their lifetimes. -/
def MethodSig.connectionBorrows (m : MethodSig) : List (Lifetime × Bool) :=
  m.params.filterMap fun t =>
    match t with
    | RustType.mutRef lt RustType.connectionTy => some (lt, true)
    | RustType.sharedRef lt RustType.connectionTy => some (lt, false)
    | _ => none

/-- The associated types of a trait that are bound by the `Cursor` trait. -/
def TraitDecl.cursorAssocs (t : TraitDecl) : List AssocTypeDecl :=
  t.assocTypes.filter fun a => a.boundTrait = some "Cursor"

/-- Modelled from the spec: the backend connection capability (the concrete
connection types live in the backend crates, not in `sqlx-core`).  `execute`
runs a query descriptor and determines the full response stream: the rows in
result-set order, followed by either clean exhaustion (`none`) or a
transport/execution failure (`some e`) reported once the rows before it have
been consumed. -/
structure MConnection (Q ρ ε : Type) : Type where
  execute : Q → List ρ × Option ε

/-- Modelled from the spec: the cursor position state machine of §4.1,
`NotStarted → Streaming → Exhausted`, with the absorbing `Errored` state.
The `streaming` state carries the rows not yet yielded and the pending
end-of-stream outcome. -/
inductive MCursorState (ρ ε : Type) : Type
  | notStarted
  | streaming (pending : List ρ) (fl : Option ε)
  | exhausted
  | errored (e : ε)
deriving DecidableEq

/-- Modelled from the spec: a cursor bound to exactly one connection
capability and one query descriptor, with its position state. -/
structure MCursor (Q ρ ε : Type) : Type where
  conn : MConnection Q ρ ε
  query : Q
  state : MCursorState ρ ε

/-- The observable outcome of one `next` call: the returned
`Result<Option<Row>>`, the cursor afterwards, and whether the call contacted
the connection (performed I/O). -/
structure NextOutcome (Q ρ ε : Type) : Type where
  result : Except ε (Option ρ)
  cursor : MCursor Q ρ ε
  contacted : Bool

/-- Modelled from the spec: advancing the response stream by one step once
the stream `(pending, fl)` is available; always contacts the connection. -/
def stepStream {Q ρ ε : Type} (c : MCursor Q ρ ε) (pending : List ρ) (fl : Option ε) :
    NextOutcome Q ρ ε :=
  match pending with
  | r :: rest => ⟨Except.ok (some r), { c with state := MCursorState.streaming rest fl }, true⟩
  | [] =>
    match fl with
    | some e => ⟨Except.error e, { c with state := MCursorState.errored e }, true⟩
    | none => ⟨Except.ok none, { c with state := MCursorState.exhausted }, true⟩

/-- Modelled from the spec: `Cursor::next`.  On the first call it submits the
bound query descriptor and awaits the head of the response stream; while
streaming it advances past the previously yielded row; in the terminal
states it returns the terminal result without contacting the connection. -/
def next {Q ρ ε : Type} (c : MCursor Q ρ ε) : NextOutcome Q ρ ε :=
  match c.state with
  | MCursorState.notStarted => stepStream c (c.conn.execute c.query).1 (c.conn.execute c.query).2
  | MCursorState.streaming pending fl => stepStream c pending fl
  | MCursorState.exhausted => ⟨Except.ok none, c, false⟩
  | MCursorState.errored e => ⟨Except.error e, c, false⟩

/-- Modelled from the spec: `Cursor::from_connection` binds the cursor to the
(exclusively borrowed) connection and the query descriptor; no I/O happens
and the cursor starts in the not-started state. -/
def from_connection {Q ρ ε : Type} (conn : MConnection Q ρ ε) (q : Q) : MCursor Q ρ ε :=
  ⟨conn, q, MCursorState.notStarted⟩

/-- Modelled from the spec: a pool handle holding the idle connection
capabilities it can hand out. -/
structure MPool (Q ρ ε : Type) : Type where
  idle : List (MConnection Q ρ ε)

/-- The observable outcome of constructing a cursor from a pool: the cursor,
the pool afterwards, and whether construction contacted the connection. -/
structure FromPoolOutcome (Q ρ ε : Type) : Type where
  cursor : MCursor Q ρ ε
  pool : MPool Q ρ ε
  contacted : Bool

/-- Modelled from the spec: `Cursor::from_pool` checks out one connection
capability from the pool (waiting until one is idle is the pool's contract,
so an idle connection is assumed available), binds the query descriptor, and
performs no I/O; the cursor starts in the not-started state. -/
def from_pool {Q ρ ε : Type} (p : MPool Q ρ ε) (q : Q) (h : p.idle ≠ []) :
    FromPoolOutcome Q ρ ε :=
  ⟨⟨p.idle.head h, q, MCursorState.notStarted⟩, ⟨p.idle.tail⟩, false⟩

/-- The cursor reached after `k` calls to `next`. -/
def cursorAfter {Q ρ ε : Type} (c : MCursor Q ρ ε) : Nat → MCursor Q ρ ε
  | 0 => c
  | k + 1 => cursorAfter (next c).cursor k

/-- The outcome of the call with index `k` (the `(k+1)`-th call overall). -/
def nthNext {Q ρ ε : Type} (c : MCursor Q ρ ε) (k : Nat) : NextOutcome Q ρ ε :=
  next (cursorAfter c k)

/-- In the exhausted state, `next` returns the exhausted signal, leaves the
cursor unchanged and does not contact the connection. -/
theorem next_of_exhausted {Q ρ ε : Type} (c : MCursor Q ρ ε)
    (h : c.state = MCursorState.exhausted) :
    next c = ⟨Except.ok none, c, false⟩ := by
  unfold next
  rw [h]

/-- In the errored state, `next` returns the recorded failure, leaves the
cursor unchanged and does not contact the connection. -/
theorem next_of_errored {Q ρ ε : Type} (c : MCursor Q ρ ε) (e : ε)
    (h : c.state = MCursorState.errored e) :
    next c = ⟨Except.error e, c, false⟩ := by
  unfold next
  rw [h]

/-- The exhausted state is absorbing: any number of further calls leaves the
cursor unchanged. -/
theorem cursorAfter_of_exhausted {Q ρ ε : Type} (c : MCursor Q ρ ε)
    (h : c.state = MCursorState.exhausted) (k : Nat) :
    cursorAfter c k = c := by
  induction k with
  | zero => rfl
  | succ k ih =>
    show cursorAfter (next c).cursor k = c
    rw [next_of_exhausted c h]
    exact ih

/-- The errored state is absorbing: any number of further calls leaves the
cursor unchanged. -/
theorem cursorAfter_of_errored {Q ρ ε : Type} (c : MCursor Q ρ ε) (e : ε)
    (h : c.state = MCursorState.errored e) (k : Nat) :
    cursorAfter c k = c := by
  induction k with
  | zero => rfl
  | succ k ih =>
    show cursorAfter (next c).cursor k = c
    rw [next_of_errored c e h]
    exact ih

/-- Splitting an iteration of `next` calls. -/
theorem cursorAfter_add {Q ρ ε : Type} (c : MCursor Q ρ ε) (a b : Nat) :
    cursorAfter c (a + b) = cursorAfter (cursorAfter c a) b := by
  induction a generalizing c with
  | zero => simp [cursorAfter, Nat.zero_add]
  | succ a ih =>
    rw [Nat.succ_add]
    show cursorAfter (next c).cursor (a + b) = cursorAfter (cursorAfter (next c).cursor a) b
    exact ih (next c).cursor

/-- While rows remain pending (and up to the point where the stream end is
observed), `k` calls on a streaming cursor drop exactly the first `k` pending
rows and keep the cursor streaming. -/
theorem cursorAfter_streaming {Q ρ ε : Type} (conn : MConnection Q ρ ε) (q : Q)
    (fl : Option ε) :
    ∀ (k : Nat) (pending : List ρ), k ≤ pending.length →
      cursorAfter ⟨conn, q, MCursorState.streaming pending fl⟩ k
        = ⟨conn, q, MCursorState.streaming (pending.drop k) fl⟩ := by
  intro k
  induction k with
  | zero => intro pending _; simp [cursorAfter]
  | succ k ih =>
    intro pending hk
    cases pending with
    | nil => simp at hk
    | cons r rest =>
      show cursorAfter (next ⟨conn, q, MCursorState.streaming (r :: rest) fl⟩).cursor k = _
      have hnext : (next ⟨conn, q, MCursorState.streaming (r :: rest) fl⟩).cursor
          = ⟨conn, q, MCursorState.streaming rest fl⟩ := rfl
      rw [hnext, ih rest (Nat.le_of_succ_le_succ hk)]
      rfl

/-- While rows remain, the call with index `k` on a streaming cursor returns
row `k` of the pending list (contacting the connection), for any pending
end-of-stream outcome. -/
theorem nthNext_streaming_row {Q ρ ε : Type} (conn : MConnection Q ρ ε) (q : Q)
    (fl : Option ε) (pending : List ρ) (k : Nat) (hk : k < pending.length) :
    nthNext ⟨conn, q, MCursorState.streaming pending fl⟩ k
      = ⟨Except.ok (some (pending.get ⟨k, hk⟩)),
         ⟨conn, q, MCursorState.streaming (pending.drop (k + 1)) fl⟩, true⟩ := by
  unfold nthNext
  rw [cursorAfter_streaming conn q fl k pending (Nat.le_of_lt hk)]
  rw [← List.getElem_cons_drop pending k hk]
  rfl

/-- The call with index `length` (the first call past the rows) observes the
end of the stream: clean exhaustion when no failure is pending, the failure
otherwise; in both cases the connection is contacted and the cursor moves to
the corresponding terminal state. -/
theorem nthNext_streaming_end {Q ρ ε : Type} (conn : MConnection Q ρ ε) (q : Q)
    (fl : Option ε) (pending : List ρ) :
    nthNext ⟨conn, q, MCursorState.streaming pending fl⟩ pending.length
      = match fl with
        | some e => ⟨Except.error e, ⟨conn, q, MCursorState.errored e⟩, true⟩
        | none => ⟨Except.ok none, ⟨conn, q, MCursorState.exhausted⟩, true⟩ := by
  unfold nthNext
  rw [cursorAfter_streaming conn q fl pending.length pending (Nat.le_refl _),
      List.drop_length]
  cases fl <;> rfl

/-- Past the end of a clean stream, every call returns the exhausted signal
from the exhausted state without contacting the connection. -/
theorem nthNext_streaming_past_clean {Q ρ ε : Type} (conn : MConnection Q ρ ε) (q : Q)
    (pending : List ρ) (k : Nat) (hk : pending.length < k) :
    nthNext ⟨conn, q, MCursorState.streaming pending none⟩ k
      = ⟨Except.ok none, ⟨conn, q, MCursorState.exhausted⟩, false⟩ := by
  unfold nthNext
  obtain ⟨j, rfl⟩ : ∃ j, k = (pending.length + 1) + j :=
    ⟨k - pending.length - 1, by omega⟩
  rw [cursorAfter_add, cursorAfter_add,
      cursorAfter_streaming conn q none pending.length pending (Nat.le_refl _),
      List.drop_length]
  have h1 : cursorAfter (⟨conn, q, MCursorState.streaming [] none⟩ : MCursor Q ρ ε) 1
      = ⟨conn, q, MCursorState.exhausted⟩ := rfl
  rw [h1, cursorAfter_of_exhausted _ rfl, next_of_exhausted _ rfl]

/-- Past the point where a stream failure was surfaced, every call returns
the same failure from the errored state without contacting the connection. -/
theorem nthNext_streaming_past_error {Q ρ ε : Type} (conn : MConnection Q ρ ε) (q : Q)
    (e : ε) (pending : List ρ) (k : Nat) (hk : pending.length < k) :
    nthNext ⟨conn, q, MCursorState.streaming pending (some e)⟩ k
      = ⟨Except.error e, ⟨conn, q, MCursorState.errored e⟩, false⟩ := by
  unfold nthNext
  obtain ⟨j, rfl⟩ : ∃ j, k = (pending.length + 1) + j :=
    ⟨k - pending.length - 1, by omega⟩
  rw [cursorAfter_add, cursorAfter_add,
      cursorAfter_streaming conn q (some e) pending.length pending (Nat.le_refl _),
      List.drop_length]
  have h1 : cursorAfter (⟨conn, q, MCursorState.streaming [] (some e)⟩ : MCursor Q ρ ε) 1
      = ⟨conn, q, MCursorState.errored e⟩ := rfl
  rw [h1, cursorAfter_of_errored _ e rfl, next_of_errored _ e rfl]

/-- The first call on a freshly constructed cursor submits the query: it
behaves exactly like a call on a cursor already streaming the response of
`execute`. -/
theorem next_from_connection {Q ρ ε : Type} (conn : MConnection Q ρ ε) (q : Q)
    (rows : List ρ) (fl : Option ε) (h : conn.execute q = (rows, fl)) :
    next (from_connection conn q) = next ⟨conn, q, MCursorState.streaming rows fl⟩ := by
  unfold next from_connection
  simp only [h]
  cases rows <;> cases fl <;> rfl

/-- A freshly constructed cursor behaves, call by call, like a cursor
streaming the full response of its query. -/
theorem nthNext_from_connection {Q ρ ε : Type} (conn : MConnection Q ρ ε) (q : Q)
    (rows : List ρ) (fl : Option ε) (h : conn.execute q = (rows, fl)) (k : Nat) :
    nthNext (from_connection conn q) k
      = nthNext ⟨conn, q, MCursorState.streaming rows fl⟩ k := by
  cases k with
  | zero => exact next_from_connection conn q rows fl h
  | succ k =>
    show next (cursorAfter (next (from_connection conn q)).cursor k)
        = next (cursorAfter (next ⟨conn, q, MCursorState.streaming rows fl⟩).cursor k)
    rw [next_from_connection conn q rows fl h]

/-- Every call on a streaming or fresh cursor that has not yet observed the
stream end contacts the connection; in particular the first call does. -/
theorem next_streaming_contacted {Q ρ ε : Type} (conn : MConnection Q ρ ε) (q : Q)
    (pending : List ρ) (fl : Option ε) :
    (next ⟨conn, q, MCursorState.streaming pending fl⟩).contacted = true := by
  cases pending <;> cases fl <;> rfl

/-- Claim C1: for every query whose result set contains `N` rows, the
cursor's `next` operation yields the rows strictly in result-set order: each
of the first `N` calls returns one row (row `k` at call index `k`), the call
with index `N` (the `(N+1)`-th call) returns the exhausted signal `none`, and
every call after that also returns the exhausted signal. -/
theorem cursor_yields_rows_in_order {Q ρ ε : Type} (conn : MConnection Q ρ ε) (q : Q)
    (rows : List ρ) (h : conn.execute q = (rows, none)) (k : Nat) :
    (∀ hk : k < rows.length,
        (nthNext (from_connection conn q) k).result
          = Except.ok (some (rows.get ⟨k, hk⟩))) ∧
    (k = rows.length → (nthNext (from_connection conn q) k).result = Except.ok none) ∧
    (rows.length < k → (nthNext (from_connection conn q) k).result = Except.ok none) := by
  refine ⟨fun hk => ?_, fun hk => ?_, fun hk => ?_⟩
  · rw [nthNext_from_connection conn q rows none h k,
        nthNext_streaming_row conn q none rows k hk]
  · subst hk
    rw [nthNext_from_connection conn q rows none h rows.length,
        nthNext_streaming_end conn q none rows]
  · rw [nthNext_from_connection conn q rows none h k,
        nthNext_streaming_past_clean conn q rows k hk]

/-- Claim C2: `next` produces a `Result` of an optional row: the first call
submits the bound query (contacts the connection); while rows remain each
call succeeds with the next row; when the stream ends cleanly the result is
`none`; when the connection reports a failure, the failure is returned as an
error result exactly on the first call that would have needed the missing
data — and an error result occurs only in that situation. -/
theorem next_result_error_reporting {Q ρ ε : Type} (conn : MConnection Q ρ ε) (q : Q)
    (rows : List ρ) (fl : Option ε) (h : conn.execute q = (rows, fl)) :
    (nthNext (from_connection conn q) 0).contacted = true ∧
    (∀ (k : Nat) (hk : k < rows.length),
        (nthNext (from_connection conn q) k).result
          = Except.ok (some (rows.get ⟨k, hk⟩))) ∧
    (∀ e, fl = some e →
        (nthNext (from_connection conn q) rows.length).result = Except.error e) ∧
    (fl = none → ∀ k, rows.length ≤ k →
        (nthNext (from_connection conn q) k).result = Except.ok none) ∧
    (∀ (k : Nat) (e : ε),
        (nthNext (from_connection conn q) k).result = Except.error e →
          fl = some e ∧ rows.length ≤ k) := by
  refine ⟨?_, ?_, ?_, ?_, ?_⟩
  · rw [nthNext_from_connection conn q rows fl h 0]
    exact next_streaming_contacted conn q rows fl
  · intro k hk
    rw [nthNext_from_connection conn q rows fl h k,
        nthNext_streaming_row conn q fl rows k hk]
  · intro e he
    subst he
    rw [nthNext_from_connection conn q rows (some e) h rows.length,
        nthNext_streaming_end conn q (some e) rows]
  · intro hfl k hk
    subst hfl
    rcases Nat.lt_or_ge rows.length k with hlt | hge
    · rw [nthNext_from_connection conn q rows none h k,
          nthNext_streaming_past_clean conn q rows k hlt]
    · have hk2 : k = rows.length := by omega
      subst hk2
      rw [nthNext_from_connection conn q rows none h rows.length,
          nthNext_streaming_end conn q none rows]
  · intro k e he
    rcases Nat.lt_trichotomy k rows.length with hk | hk | hk
    · rw [nthNext_from_connection conn q rows fl h k,
          nthNext_streaming_row conn q fl rows k hk] at he
      simp at he
    · subst hk
      cases fl with
      | none =>
        rw [nthNext_from_connection conn q rows none h rows.length,
            nthNext_streaming_end conn q none rows] at he
        simp at he
      | some e2 =>
        rw [nthNext_from_connection conn q rows (some e2) h rows.length,
            nthNext_streaming_end conn q (some e2) rows] at he
        simp at he
        exact ⟨by rw [he], Nat.le_refl _⟩
    · cases fl with
      | none =>
        rw [nthNext_from_connection conn q rows none h k,
            nthNext_streaming_past_clean conn q rows k hk] at he
        simp at he
      | some e2 =>
        rw [nthNext_from_connection conn q rows (some e2) h k,
            nthNext_streaming_past_error conn q e2 rows k hk] at he
        simp at he
        exact ⟨by rw [he], Nat.le_of_lt hk⟩

/-- Claim C5: the exhausted and errored states are absorbing: `next` on a
terminal cursor returns the terminal result, leaves the cursor unchanged and
performs no I/O (`contacted = false`); a transport failure surfacing at the
fetch just past the rows moves the cursor to the errored state, and every
later fetch returns the same failure without contacting the connection. -/
theorem terminal_states_absorbing {Q ρ ε : Type} :
    (∀ c : MCursor Q ρ ε, c.state = MCursorState.exhausted →
        next c = ⟨Except.ok none, c, false⟩) ∧
    (∀ (c : MCursor Q ρ ε) (e : ε), c.state = MCursorState.errored e →
        next c = ⟨Except.error e, c, false⟩) ∧
    (∀ (conn : MConnection Q ρ ε) (q : Q) (rows : List ρ) (e : ε),
        conn.execute q = (rows, some e) →
          nthNext (from_connection conn q) rows.length
            = ⟨Except.error e, ⟨conn, q, MCursorState.errored e⟩, true⟩) ∧
    (∀ (conn : MConnection Q ρ ε) (q : Q) (rows : List ρ) (e : ε),
        conn.execute q = (rows, some e) → ∀ j, rows.length < j →
          nthNext (from_connection conn q) j
            = ⟨Except.error e, ⟨conn, q, MCursorState.errored e⟩, false⟩) := by
  refine ⟨next_of_exhausted, next_of_errored, fun conn q rows e h => ?_,
          fun conn q rows e h j hj => ?_⟩
  · rw [nthNext_from_connection conn q rows (some e) h rows.length,
        nthNext_streaming_end conn q (some e) rows]
  · rw [nthNext_from_connection conn q rows (some e) h j,
        nthNext_streaming_past_error conn q e rows j hj]

/-- Claim C6: constructing a cursor from a pool checks out exactly one
connection capability (the pool keeps the rest), binds the query descriptor,
hands the checked-out connection to the cursor, performs no I/O, and the
cursor starts in the not-started state. -/
theorem from_pool_checkout {Q ρ ε : Type} (p : MPool Q ρ ε) (q : Q)
    (h : p.idle ≠ []) :
    (from_pool p q h).cursor.state = MCursorState.notStarted ∧
    (from_pool p q h).cursor.query = q ∧
    (from_pool p q h).cursor.conn = p.idle.head h ∧
    (from_pool p q h).pool.idle = p.idle.tail ∧
    (from_pool p q h).pool.idle.length + 1 = p.idle.length ∧
    (from_pool p q h).contacted = false := by
  obtain ⟨idle⟩ := p
  cases idle with
  | nil => exact absurd rfl h
  | cons c rest => exact ⟨rfl, rfl, rfl, rfl, rfl, rfl⟩

/-- Claim C3: the row produced by a `next` call is confined to the exclusive
borrow that call takes: in the declared signature of `Cursor::next`, the
receiver is an exclusive (`&mut`) borrow of the cursor with the method-local
lifetime `'cur`, every row type occurring in the return type carries exactly
that lifetime, and `'cur` is not a trait-level lifetime parameter — so the
row's validity ends with the borrow and reading it after the following fetch
(which needs a fresh exclusive borrow) is rejected by construction, not
detected at run time. -/
theorem next_row_lifetime_confined :
    next_sig.receiverExclusiveLifetime = some Lifetime.lcur ∧
    RustType.rowLifetimes next_sig.ret = [Lifetime.lcur] ∧
    Lifetime.lcur ∉ cursorTrait.lifetimeParams ∧
    next_sig ∈ cursorTrait.methods := by
  refine ⟨rfl, rfl, by decide, by decide⟩

/-- Claim C4: `Cursor::from_connection` binds the cursor to an exclusive
borrow of one connection: its declared parameters contain exactly one
connection borrow, that borrow is exclusive (mutable) with lifetime `'c`,
`'c` is the trait's first lifetime parameter (the cursor's own lifetime
parameter), and the constructor returns `Self` directly — the at-most-one-
consumer guarantee is established by the borrow, statically, with no runtime
check. -/
theorem from_connection_exclusive_borrow :
    from_connection_sig.connectionBorrows = [(Lifetime.lc, true)] ∧
    cursorTrait.lifetimeParams.head? = some Lifetime.lc ∧
    from_connection_sig.ret = RustType.selfTy ∧
    from_connection_sig ∈ cursorTrait.methods := by
  refine ⟨rfl, rfl, rfl, by decide⟩

/-- Claim C7: at most one fetch can be in flight per cursor: the declared
signature of `Cursor::next` takes the cursor by exclusive (`&mut`) borrow
with lifetime `'cur`, the returned future carries exactly that lifetime (so
it holds the exclusive borrow for its whole duration), and `next` has no
other parameters — a second `next` call, needing another exclusive borrow,
cannot be issued while the returned future is alive. -/
theorem next_single_inflight_fetch :
    next_sig.receiverExclusiveLifetime = some Lifetime.lcur ∧
    RustType.futureLifetime next_sig.ret = some Lifetime.lcur ∧
    next_sig.params = [] ∧
    next_sig ∈ cursorTrait.methods := by
  refine ⟨rfl, rfl, rfl, by decide⟩

/-- Claim C8: the cursor contract is sealed: the `Cursor` trait requires
`Self: private::Sealed` as a supertrait bound, and the `Sealed` marker trait
lives in a crate-private (`pub(crate)`) module, so only code inside the
library can grant the capability needed to implement `Cursor`. -/
theorem cursor_trait_sealed :
    "private::Sealed" ∈ cursorTrait.supertraits ∧
    privateModule.vis = Visibility.pubCrate ∧
    "Sealed" ∈ privateModule.traitDecls := by
  refine ⟨by decide, rfl, by decide⟩

/-- Claim C9: the backend-binding indirection `HasCursor` resolves, for the
lifetime pairing of its two trait lifetime parameters, to exactly one
associated cursor type, that associated type's bound carries the
`Database = Self::Database` equality constraint (its backend identity equals
the binding's), and the trait declares no methods — it is a purely
compile-time, non-failing, type-level facility. -/
theorem hasCursor_unique_binding :
    hasCursorTrait.cursorAssocs.length = 1 ∧
    (∀ a ∈ hasCursorTrait.cursorAssocs,
        a.databaseEq = true ∧ a.boundLifetimes = hasCursorTrait.lifetimeParams) ∧
    hasCursorTrait.methods = [] := by
  refine ⟨by decide, by decide, rfl⟩

/-- Claim C10: both cursor constructors are infallible at the interface:
the declared return type of `Cursor::from_pool` and of
`Cursor::from_connection` is `Self` — a cursor value directly — and no
`Result` type occurs in either return type, so construction cannot report a
runtime error such as an exclusivity violation. -/
theorem constructors_infallible :
    from_pool_sig.ret = RustType.selfTy ∧
    from_connection_sig.ret = RustType.selfTy ∧
    RustType.mentionsResult from_pool_sig.ret = false ∧
    RustType.mentionsResult from_connection_sig.ret = false ∧
    from_pool_sig ∈ cursorTrait.methods ∧
    from_connection_sig ∈ cursorTrait.methods := by
  refine ⟨rfl, rfl, rfl, rfl, by decide, by decide⟩

/-- A concrete connection whose query response is the clean three-row stream
of the end-to-end scenario. -/
def exConn : MConnection String String String :=
  ⟨fun _ => (["a", "b", "c"], none)⟩

/-- A concrete connection whose query response yields one row and then a
transport failure. -/
def errConn : MConnection String String String :=
  ⟨fun _ => (["a"], some "connection reset")⟩

/-- Witness for claim C1 at the end-to-end scenario: three rows `a`, `b`,
`c` in order, then the exhausted signal, repeatedly. -/
theorem cursor_yields_rows_in_order_check :
    (nthNext (from_connection exConn "SELECT slug FROM articles") 0).result
      = Except.ok (some "a") ∧
    (nthNext (from_connection exConn "SELECT slug FROM articles") 1).result
      = Except.ok (some "b") ∧
    (nthNext (from_connection exConn "SELECT slug FROM articles") 2).result
      = Except.ok (some "c") ∧
    (nthNext (from_connection exConn "SELECT slug FROM articles") 3).result
      = Except.ok none ∧
    (nthNext (from_connection exConn "SELECT slug FROM articles") 9).result
      = Except.ok none := by
  refine ⟨?_, ?_, ?_, ?_, ?_⟩
  · exact (cursor_yields_rows_in_order exConn _ ["a", "b", "c"] rfl 0).1 (by decide)
  · exact (cursor_yields_rows_in_order exConn _ ["a", "b", "c"] rfl 1).1 (by decide)
  · exact (cursor_yields_rows_in_order exConn _ ["a", "b", "c"] rfl 2).1 (by decide)
  · exact (cursor_yields_rows_in_order exConn _ ["a", "b", "c"] rfl 3).2.1 (by decide)
  · exact (cursor_yields_rows_in_order exConn _ ["a", "b", "c"] rfl 9).2.2 (by decide)

/-- Witness for claim C2 at a failing stream: the first call contacts the
connection and returns the one available row; the second call, the first one
needing the missing data, returns the failure. -/
theorem next_result_error_reporting_check :
    (nthNext (from_connection errConn "SELECT 1") 0).contacted = true ∧
    (nthNext (from_connection errConn "SELECT 1") 0).result = Except.ok (some "a") ∧
    (nthNext (from_connection errConn "SELECT 1") 1).result
      = Except.error "connection reset" := by
  refine ⟨?_, ?_, ?_⟩
  · exact (next_result_error_reporting errConn "SELECT 1" ["a"]
      (some "connection reset") rfl).1
  · exact (next_result_error_reporting errConn "SELECT 1" ["a"]
      (some "connection reset") rfl).2.1 0 (by decide)
  · exact (next_result_error_reporting errConn "SELECT 1" ["a"]
      (some "connection reset") rfl).2.2.1 "connection reset" rfl

/-- Witness for claim C5: an exhausted cursor answers without I/O and
unchanged, and after the transport failure of `errConn` every later fetch
returns the same failure without contacting the connection. -/
theorem terminal_states_absorbing_check :
    next (⟨exConn, "q", MCursorState.exhausted⟩ : MCursor String String String)
      = ⟨Except.ok none, ⟨exConn, "q", MCursorState.exhausted⟩, false⟩ ∧
    nthNext (from_connection errConn "SELECT 1") 4
      = ⟨Except.error "connection reset",
         ⟨errConn, "SELECT 1", MCursorState.errored "connection reset"⟩, false⟩ := by
  refine ⟨?_, ?_⟩
  · exact (@terminal_states_absorbing String String String).1 _ rfl
  · exact (@terminal_states_absorbing String String String).2.2.2 errConn "SELECT 1"
      ["a"] "connection reset" rfl 4 (by decide)

/-- Witness for claim C6: checking a cursor out of a one-connection pool
leaves an empty pool, starts the cursor in the not-started state, and does
no I/O. -/
theorem from_pool_checkout_check :
    (from_pool (⟨[exConn]⟩ : MPool String String String) "SELECT 1"
        (List.cons_ne_nil exConn [])).cursor.state = MCursorState.notStarted ∧
    (from_pool (⟨[exConn]⟩ : MPool String String String) "SELECT 1"
        (List.cons_ne_nil exConn [])).pool.idle.length + 1 = 1 ∧
    (from_pool (⟨[exConn]⟩ : MPool String String String) "SELECT 1"
        (List.cons_ne_nil exConn [])).contacted = false := by
  refine ⟨?_, ?_, ?_⟩
  · exact (from_pool_checkout ⟨[exConn]⟩ "SELECT 1" (List.cons_ne_nil exConn [])).1
  · exact (from_pool_checkout ⟨[exConn]⟩ "SELECT 1"
      (List.cons_ne_nil exConn [])).2.2.2.2.1
  · exact (from_pool_checkout ⟨[exConn]⟩ "SELECT 1"
      (List.cons_ne_nil exConn [])).2.2.2.2.2

end SqlxCursor
